import Mathlib

/-!
Verification of the windowed table renderer and command dispatch of the
DatabaseVisualizer repository (src/dbv/tui.py), as a shallow embedding.

Python integers are modelled as `Int`; machine-level concerns do not arise.
Fallible operations (Python exceptions) are modelled with `Except String`.
The rich library's column measurement is external to the repository; the
renderer is parameterized over an arbitrary measure function, and a concrete
`measureColumn` (maximum over header label width and formatted cell widths,
per the library's documented behaviour) is supplied for concrete evaluation.
-/

namespace DBV

/-- A Python value as it appears in a dataframe cell: a string, an integer
(e.g. the row index produced by `itertuples`), or any other object carried
by its `repr` string. `format` in `TableView.__rich_console__` distinguishes
strings (rendered as `Text`) from everything else (rendered as `Pretty`). -/
inductive PyVal where
  | vstr (s : String)
  | vint (n : Int)
  | vother (r : String)
deriving DecidableEq

/-- A formatted cell renderable: `Text(v)` for strings, `Pretty(v)` for
anything else (carrying the pretty-printed representation). -/
inductive Renderable where
  | text (s : String)
  | pretty (s : String)
deriving DecidableEq

/-- `format(v)` from `TableView.__rich_console__`:
`Text(v) if isinstance(v, str) else Pretty(v)`. -/
def formatVal : PyVal → Renderable
  | .vstr s => .text s
  | .vint n => .pretty (toString n)
  | .vother r => .pretty r

/-- The dask DataFrame handle, reduced to what the core reads: column names
and rows of cell values (positionally indexed from 0, as with a RangeIndex). -/
structure DF where
  colNames : List String
  rows : List (List PyVal)
deriving DecidableEq

/-- `TableView` state: the dataframe, `_last_page_size`, `_startat`,
`_column_startat` and the optional row predicate `filter`
(`TableView.__init__`, src/dbv/tui.py lines 113-118). -/
structure TableView where
  df : DF
  lastPageSize : Int
  startat : Int
  columnStartat : Int
  filter : Option (List PyVal → Bool)

/-- `TableView.__init__(df)`: page size 0, offsets 0, no filter. -/
def initTV (df : DF) : TableView :=
  { df := df, lastPageSize := 0, startat := 0, columnStartat := 0, filter := none }

/-- The clamp in the `startat` setter (line 128):
`min(len(self.df) - 1, max(0, startat))`. -/
def clampRow (df : DF) (x : Int) : Int :=
  min ((df.rows.length : Int) - 1) (max 0 x)

/-- The clamp in the `column_startat` setter (line 138):
`min(len(self.df.columns) - 1, max(0, column_startat))`. -/
def clampCol (df : DF) (x : Int) : Int :=
  min ((df.colNames.length : Int) - 1) (max 0 x)

/-- The `startat` property setter. -/
def setStartat (tv : TableView) (x : Int) : TableView :=
  { tv with startat := clampRow tv.df x }

/-- The `column_startat` property setter. -/
def setColumnStartat (tv : TableView) (x : Int) : TableView :=
  { tv with columnStartat := clampCol tv.df x }

/-- `TableView.increment_page`: `self.startat += self._last_page_size`
(through the clamping setter). -/
def incrementPage (tv : TableView) : TableView :=
  setStartat tv (tv.startat + tv.lastPageSize)

/-- `TableView.decrement_page`: `self.startat -= self._last_page_size`. -/
def decrementPage (tv : TableView) : TableView :=
  setStartat tv (tv.startat - tv.lastPageSize)

/-! ## Row filtering and paging -/

/-- `df.pipe(lambda df: df if not self.filter else df[self.filter])`:
the filtered rows, each paired with its original positional index (which
`itertuples` later yields as the first tuple field). -/
def filterRows (df : DF) (rowFilter : Option (List PyVal → Bool)) :
    List (Nat × List PyVal) :=
  match rowFilter with
  | none => df.rows.enum
  | some p => df.rows.enum.filter (fun iv => p iv.2)

/-- The ValueError message raised by `itertools.islice` on a negative index. -/
def isliceErr : String :=
  "ValueError: Indices for islice() must be None or an integer: 0 <= x <= sys.maxsize."

/-- `list(itertools.islice(it, startat, startat + height))` (lines 166-168):
raises ValueError when either bound is negative; with both bounds
nonnegative it yields the elements with indices in [start, stop). -/
def pagedSlice (rows : List α) (startat height : Int) : Except String (List α) :=
  if startat < 0 ∨ startat + height < 0 then .error isliceErr
  else .ok ((rows.drop startat.toNat).take ((startat + height).toNat - startat.toNat))

/-! ## Column measuring and trimming -/

/-- `np.add.accumulate`: running totals, same length as the input. -/
def cumsum : List Nat → List Nat
  | [] => []
  | a :: l => a :: (cumsum l).map (a + ·)

/-- Index of the first element satisfying `p` (`np.where(...)[0]` followed by
taking element 0 of the resulting index array). -/
def firstIdx (p : α → Bool) : List α → Option Nat
  | [] => none
  | a :: l => if p a then some 0 else (firstIdx p l).map (· + 1)

/-- `cant_render[0]` (lines 188-194): the first candidate-column index whose
running total of widths (each +1 for the column separator) exceeds `width`,
if any. -/
def firstOverflow (widths : List Nat) (width : Int) : Option Nat :=
  firstIdx (fun t : Nat => decide ((t : Int) > width)) (cumsum (widths.map (· + 1)))

/-- `max_column = max(cant_render[0], self.column_startat + 1)` (line 195):
the number of candidate columns kept, `none` when everything fits. -/
def columnCut (widths : List Nat) (width : Int) (columnStartat : Int) : Option Nat :=
  match firstOverflow widths width with
  | none => none
  | some fo => some ((max (fo : Int) (columnStartat + 1)).toNat)

/-- `zip(*paged)`: transpose down to the shortest row, empty when there are
no rows (Python's `zip()` with no arguments). -/
def zipTranspose (rows : List (List α)) : List (List α) :=
  match (rows.map List.length).min? with
  | none => []
  | some m => (List.range m).map (fun i => (rows.map (fun r => r.get? i)).reduceOption)

/-- Width of a formatted cell, as measured by the rendering library
(character count of the rendered text). -/
def renderWidth : Renderable → Nat
  | .text s => s.length
  | .pretty s => s.length

/-- `table._measure_column(console, options, column)` for a column built as
`Column(name, _cells=[format(v) for v in values])`: the maximum over the
header label width and every cell's width. This call is into the external
rich library; this definition models its documented measurement and is used
for concrete evaluation, while the theorems are parameterized over an
arbitrary measure. -/
def measureColumn (name : String) (cells : List Renderable) : Nat :=
  max name.length ((cells.map renderWidth).foldr max 0)

/-! ## The renderer -/

/-- The observable output of one `__rich_console__` call: the column headers
added to the table, the formatted body rows, and the trailing status line. -/
structure RenderOutput where
  columnNames : List String
  rows : List (List Renderable)
  footer : String
deriving DecidableEq

/-- `ConsoleOptions` as read by the renderer: `options.height` and
`options.max_width`. -/
structure ConsoleOptions where
  height : Int
  maxWidth : Int
deriving DecidableEq

/-- The body of `TableView.__rich_console__` (lines 148-206) as a function of
the fields it reads. `mw` is the external column measure. Steps, in source
order: filter rows, slice columns from `columnStartat`, page rows with
`islice`, build candidate columns (index column first) from the row window,
measure them, find the first overflowing running total, cut at
`max(firstOverflow, columnStartat + 1)`, and emit the table plus the
`"... N total rows"` footer for the filtered (unwindowed) length. -/
def renderWindow (mw : String → List Renderable → Nat) (df : DF)
    (rowFilter : Option (List PyVal → Bool))
    (startat columnStartat height width : Int) : Except String RenderOutput :=
  let filteredRows := filterRows df rowFilter
  let sliced := filteredRows.map (fun iv => (iv.1, iv.2.drop columnStartat.toNat))
  match pagedSlice sliced startat height with
  | .error e => .error e
  | .ok paged =>
    let tuples := paged.map (fun iv => PyVal.vint (iv.1 : Int) :: iv.2)
    let columnNames := " " :: df.colNames.drop columnStartat.toNat
    let cellCols := (zipTranspose tuples).map (fun col => col.map formatVal)
    let widths := (columnNames.zip cellCols).map (fun nc => mw nc.1 nc.2)
    let keptNames :=
      match columnCut widths width columnStartat with
      | none => columnNames
      | some m => columnNames.take m
    let keptRows :=
      match columnCut widths width columnStartat with
      | none => tuples
      | some m => tuples.map (fun (row : List PyVal) => row.take m)
    .ok { columnNames := keptNames
          rows := keptRows.map (fun (row : List PyVal) => row.map formatVal)
          footer := "... " ++ toString filteredRows.length ++ " total rows" }

/-- `TableView.__rich_console__`: computes `height = options.height - 7`,
`width = options.max_width - 2`, stores the page size
(`self._last_page_size = height`, line 157) and renders. The state write
happens before the paging call, so it persists even when `islice` raises. -/
def renderRich (mw : String → List Renderable → Nat) (tv : TableView)
    (opts : ConsoleOptions) : Except String RenderOutput × TableView :=
  (renderWindow mw tv.df tv.filter tv.startat tv.columnStartat
      (opts.height - 7) (opts.maxWidth - 2),
   { tv with lastPageSize := opts.height - 7 })

/-- Projection helper: the footer of a successful render. -/
def okFooter : Except String RenderOutput → Option String
  | .ok o => some o.footer
  | .error _ => none

/-- Projection helper: the column headers of a successful render. -/
def okColumnNames : Except String RenderOutput → Option (List String)
  | .ok o => some o.columnNames
  | .error _ => none

/-- Projection helper: the body rows of a successful render. -/
def okRows : Except String RenderOutput → Option (List (List Renderable))
  | .ok o => some o.rows
  | .error _ => none

/-! ## Interface, commands and dispatch -/

/-- The `Mode` enum (src/dbv/tui.py lines 34-47). -/
inductive Mode where
  | LOADING
  | SUMMARY
  | TABLE
  | HELP
deriving DecidableEq

/-- `Interface` state as read and written by the commands: the dataframe,
the current mode and the table view. (The summary/help views hold no
mutable state of their own.) -/
structure Interface where
  df : DF
  mode : Mode
  table : TableView

/-- `Interface.__init__(df, title)`: mode TABLE, fresh `TableView(df)`. -/
def initInterface (df : DF) : Interface :=
  { df := df, mode := Mode.TABLE, table := initTV df }

/-- The `Command` dataclass (lines 209-220). Actions take the interface
state and return the new state together with the continue/stop boolean;
the `refresh` callback performs no state change and is elided. -/
structure Command where
  key : String
  shortDescription : String
  fn : Interface → Interface × Bool
  help : String

/-- `summary_mode` (key "s"): switch to Summary mode, continue. -/
def summary_mode (i : Interface) : Interface × Bool :=
  ({ i with mode := Mode.SUMMARY }, true)

/-- `table_mode` (key "t"): switch to Table mode, continue. -/
def table_mode (i : Interface) : Interface × Bool :=
  ({ i with mode := Mode.TABLE }, true)

/-- `load_command` (key "L"): switch to Loading mode, continue. -/
def load_command (i : Interface) : Interface × Bool :=
  ({ i with mode := Mode.LOADING }, true)

/-- `scroll_left` (key "h"): `self.table.column_startat -= 1`. -/
def scroll_left (i : Interface) : Interface × Bool :=
  ({ i with table := setColumnStartat i.table (i.table.columnStartat - 1) }, true)

/-- `scroll_down` (key "j"): `self.table.increment_page()`. -/
def scroll_down (i : Interface) : Interface × Bool :=
  ({ i with table := incrementPage i.table }, true)

/-- `scroll_up` (key "k"): `self.table.decrement_page()`. -/
def scroll_up (i : Interface) : Interface × Bool :=
  ({ i with table := decrementPage i.table }, true)

/-- `scroll_right` (key "l"): `self.table.column_startat += 1`. -/
def scroll_right (i : Interface) : Interface × Bool :=
  ({ i with table := setColumnStartat i.table (i.table.columnStartat + 1) }, true)

/-- `go_to_top` (key "g"): `self.table.startat = 0`. -/
def go_to_top (i : Interface) : Interface × Bool :=
  ({ i with table := setStartat i.table 0 }, true)

/-- `go_to_bottom` (key "G"):
`self.table.startat = len(self.df) - self.table._last_page_size`. -/
def go_to_bottom (i : Interface) : Interface × Bool :=
  ({ i with table :=
      setStartat i.table ((i.df.rows.length : Int) - i.table.lastPageSize) }, true)

/-- `quit` (key "q"): return False, no state change. -/
def quit_command (i : Interface) : Interface × Bool :=
  (i, false)

/-- `show_help` (key "?"): switch to Help mode, continue. -/
def show_help (i : Interface) : Interface × Bool :=
  ({ i with mode := Mode.HELP }, true)

/-- Registries are Python dicts keyed by the trigger character; modelled as
association lists in insertion order with first-match lookup. -/
def lookupKey (d : List (String × Command)) (k : String) : Option Command :=
  (d.find? (fun kc => kc.1 == k)).map (fun kc => kc.2)

/-- `add_command(command_dict, key, short_description)` applied to `fn`
(lines 223-232): raises `KeyError(f"Command {key} already exists")` when the
key is present, otherwise inserts `Command(key, short_description, fn,
fn.__doc__)`. -/
def addCommand (d : List (String × Command)) (key shortDescription : String)
    (fn : Interface → Interface × Bool) (doc : String) :
    Except String (List (String × Command)) :=
  if (lookupKey d key).isSome then
    .error ("Command " ++ key ++ " already exists")
  else
    .ok (d ++ [(key, ⟨key, shortDescription, fn, doc⟩)])

/-- The global registry `Interface.commands`, in decorator execution order. -/
def commands : List (String × Command) :=
  [("s", ⟨"s", "(s)ummary", summary_mode, "Show a summary of the database"⟩),
   ("t", ⟨"t", "(t)able", table_mode, "Show the database as a table"⟩),
   ("L", ⟨"L", "(L)oad", load_command, "Load a database"⟩),
   ("q", ⟨"q", "(q)uit", quit_command, "Quit"⟩),
   ("?", ⟨"?", "help", show_help, "Show this help page"⟩)]

/-- The mode-scoped registry `Interface.table_commands`. -/
def table_commands : List (String × Command) :=
  [("h", ⟨"h", "scroll left", scroll_left, "Scroll left one column in the table view"⟩),
   ("j", ⟨"j", "scroll down", scroll_down, "Scroll down one page in the table view"⟩),
   ("k", ⟨"k", "scroll up", scroll_up, "Scroll up one page in the table view"⟩),
   ("l", ⟨"l", "scroll right", scroll_right, "Scroll right one column in the table view"⟩),
   ("g", ⟨"g", "Go to top", go_to_top, "Go to the top of the table"⟩),
   ("G", ⟨"G", "Go to bottom", go_to_bottom, "Go to the bottom of the table"⟩)]

/-- `Interface.keyboard_handler` (lines 270-287), parameterized over the two
registries it reads (`self.table_commands` and `self.commands`, which the
class fixes to `table_commands` and `commands` above): in TABLE mode a hit
in the mode-scoped registry wins; otherwise the global registry is tried;
otherwise the state is untouched and True is returned. -/
def keyboardHandler (tc gc : List (String × Command)) (i : Interface)
    (ch : String) : Interface × Bool :=
  if i.mode = Mode.TABLE then
    match lookupKey tc ch with
    | some cmd => cmd.fn i
    | none =>
      match lookupKey gc ch with
      | some cmd => cmd.fn i
      | none => (i, true)
  else
    match lookupKey gc ch with
    | some cmd => cmd.fn i
    | none => (i, true)

/-! ## Arithmetic lemmas about the column-fit computation -/


theorem cumsum_length (l : List Nat) : (cumsum l).length = l.length := by
  induction l with
  | nil => rfl
  | cons a t ih => simp [cumsum, ih]

theorem cumsum_get? (l : List Nat) (i : Nat) (h : i < l.length) :
    (cumsum l).get? i = some ((l.take (i + 1)).sum) := by
  induction l generalizing i with
  | nil => simp at h
  | cons a t ih =>
    cases i with
    | zero => simp [cumsum]
    | succ j =>
      simp only [cumsum, List.get?_cons_succ, List.get?_map]
      rw [ih j (by simpa using h)]
      simp [List.take_succ_cons, List.sum_cons]

theorem firstIdx_some_lt {p : α → Bool} {l : List α} {n : Nat}
    (h : firstIdx p l = some n) : n < l.length := by
  induction l generalizing n with
  | nil => simp [firstIdx] at h
  | cons a t ih =>
    simp only [firstIdx] at h
    split at h
    · cases h; simp
    · cases hm : firstIdx p t with
      | none => rw [hm] at h; simp at h
      | some m =>
        rw [hm] at h
        simp only [Option.map_some'] at h
        cases h
        simpa using ih hm

theorem firstIdx_some_false {p : α → Bool} {l : List α} {n : Nat}
    (h : firstIdx p l = some n) (i : Nat) (hi : i < n) (a : α)
    (ha : l.get? i = some a) : p a = false := by
  induction l generalizing n i with
  | nil => simp [firstIdx] at h
  | cons b t ih =>
    simp only [firstIdx] at h
    split at h
    · cases h; omega
    · rename_i hb
      cases hm : firstIdx p t with
      | none => rw [hm] at h; simp at h
      | some m =>
        rw [hm] at h
        simp only [Option.map_some'] at h
        cases h
        cases i with
        | zero =>
          simp only [List.get?_cons_zero] at ha
          cases ha
          simpa using hb
        | succ j =>
          simp only [List.get?_cons_succ] at ha
          exact ih hm j (by omega) ha

theorem firstIdx_none_false {p : α → Bool} {l : List α}
    (h : firstIdx p l = none) (a : α) (ha : a ∈ l) : p a = false := by
  induction l with
  | nil => simp at ha
  | cons b t ih =>
    simp only [firstIdx] at h
    split at h
    · simp at h
    · rename_i hb
      rcases List.mem_cons.mp ha with rfl | hmem
      · simpa using hb
      · cases hm : firstIdx p t with
        | none => exact ih hm hmem
        | some m => rw [hm] at h; simp at h

theorem sum_mem_cumsum {l : List Nat} (h : l ≠ []) : l.sum ∈ cumsum l := by
  induction l with
  | nil => simp at h
  | cons a t ih =>
    cases t with
    | nil => simp [cumsum]
    | cons b u =>
      simp only [cumsum, List.sum_cons, List.mem_cons]
      right
      rw [List.mem_map]
      exact ⟨(b :: u).sum, ih (by simp), rfl⟩


/-! ## Claim theorems -/

/-- C2 (amended): for any column measure, viewport width and column offset
c ≥ 0, whenever the render's column cut is not forced by the offset — i.e.
every running total fits (given a nonnegative width), or the first overflow
index is at least c+1 — the cumulative measured width (one separator per
column included) of the kept candidate columns does not exceed the width.
When the first overflow index is below c+1 the cut is forced up to c+1 and
the kept set may exceed the width by more than the single mandatory first
visible column (see the counterexample). -/
theorem C2_column_fit_amended (widths : List Nat) (width : Int) (c : Int)
    (hc : 0 ≤ c) :
    (columnCut widths width c = none → 0 ≤ width →
        (((widths.map (fun x : Nat => x + 1)).sum : Int) ≤ width))
    ∧ (∀ fo : Nat, firstOverflow widths width = some fo → c + 1 ≤ (fo : Int) →
        ((((widths.map (fun x : Nat => x + 1)).take fo).sum : Int) ≤ width)) := by
  constructor
  · intro hcut hw
    have hnone : firstOverflow widths width = none := by
      unfold columnCut at hcut
      cases hfo : firstOverflow widths width with
      | none => rfl
      | some fo => rw [hfo] at hcut; simp at hcut
    by_cases hl0 : widths.map (fun x : Nat => x + 1) = []
    · rw [hl0]; simpa using hw
    · have hmem := sum_mem_cumsum hl0
      have hfalse := firstIdx_none_false hnone _ hmem
      simp only [decide_eq_false_iff_not, not_lt] at hfalse
      exact hfalse
  · intro fo hfo hcfo
    have hfo1 : 1 ≤ fo := by omega
    have hlt := firstIdx_some_lt hfo
    rw [cumsum_length] at hlt
    obtain ⟨m, rfl⟩ : ∃ m, fo = m + 1 := ⟨fo - 1, by omega⟩
    have hget := cumsum_get? (widths.map (fun x : Nat => x + 1)) m (by omega)
    have hfalse := firstIdx_some_false hfo m (by omega) _ hget
    simp only [decide_eq_false_iff_not, not_lt] at hfalse
    exact hfalse

/-- Witness for C2: a concrete cut at the first overflow index keeps a
prefix of total width within the viewport. -/
theorem C2_column_fit_witness :
    (((([1, 30, 5] : List Nat).map (fun x : Nat => x + 1)).take 1).sum : Int) ≤ 10 :=
  (C2_column_fit_amended [1, 30, 5] 10 0 (by decide)).2 1 rfl (by decide)

/-! ## Concrete fixtures for counterexamples and witnesses -/

/-- A dataset with one column and zero rows. -/
def dfEmptyRows : DF := { colNames := ["a"], rows := [] }

/-- A dataset with zero columns and three rows. -/
def dfNoCols : DF := { colNames := [], rows := [[], [], []] }

/-- A dataset with one column and three rows. -/
def dfThreeRows : DF :=
  { colNames := ["a"], rows := [[.vstr "x"], [.vstr "y"], [.vstr "z"]] }

/-- Four columns, each 10 characters wide. -/
def dfWideFour : DF :=
  { colNames := ["a", "b", "c", "d"],
    rows := [[.vstr "aaaaaaaaaa", .vstr "bbbbbbbbbb",
              .vstr "cccccccccc", .vstr "dddddddddd"]] }

/-- `dfWideFour` scrolled right twice (column offset 2, via the setter). -/
def tvWideFourAt2 : TableView := setColumnStartat (initTV dfWideFour) 2

/-- One column, 50 characters wide. -/
def dfOneWide : DF :=
  { colNames := ["a"],
    rows := [[.vstr "aaaaaaaaaaaaaaaaaaaaaaaaaaaaaaaaaaaaaaaaaaaaaaaaaa"]] }

/-- Two columns, the second 20 characters wide. -/
def dfTwoColsWide : DF :=
  { colNames := ["a", "b"], rows := [[.vstr "x", .vstr "yyyyyyyyyyyyyyyyyyyy"]] }

/-- `dfTwoColsWide` scrolled right once (column offset 1, via the setter). -/
def tvTwoColsAt1 : TableView := setColumnStartat (initTV dfTwoColsWide) 1

/-- The output of rendering `tvTwoColsAt1` in a 17x12 viewport. -/
def outTwoColsAt1 : RenderOutput :=
  { columnNames := [" ", "b"],
    rows := [[.pretty "0", .text "yyyyyyyyyyyyyyyyyyyy"]],
    footer := "... 1 total rows" }

/-- A 17-row, 12-column viewport: row window 10, column budget 10. -/
def optsTall : ConsoleOptions := { height := 17, maxWidth := 12 }

/-- A row predicate keeping only the row `["x"]`. -/
def pOnlyX : List PyVal → Bool := fun vals => decide (vals = [PyVal.vstr "x"])

/-- `dfThreeRows` with the `pOnlyX` filter installed (filtered extent 1). -/
def tvFiltered : TableView := { initTV dfThreeRows with filter := some pOnlyX }

/-- Rendering with the row offset at or past the filtered extent produces an
empty row window (no error), for any nonnegative offset and window height. -/
theorem renderWindow_past_extent (mw : String → List Renderable → Nat) (df : DF)
    (rowFilter : Option (List PyVal → Bool)) (st c h w : Int)
    (h0 : 0 ≤ st) (hh : 0 ≤ h)
    (hlen : (filterRows df rowFilter).length ≤ st.toNat) :
    okRows (renderWindow mw df rowFilter st c h w) = some [] := by
  simp only [renderWindow, pagedSlice]
  rw [if_neg (by omega : ¬(st < 0 ∨ st + h < 0))]
  rw [List.drop_eq_nil_of_le
    (show ((filterRows df rowFilter).map
        (fun iv : Nat × List PyVal => (iv.1, iv.2.drop c.toNat))).length ≤ st.toNat
      by simpa using hlen)]
  simp only [List.take_nil]
  rfl

/-! ## Claim theorems -/

/-- C1 (code bug at zero extent): on a dataset with zero rows the `startat`
setter clamp `min(len(df) - 1, max(0, x))` evaluates to `-1`, not to the `0`
the claim states; likewise the `column_startat` setter on a dataset with
zero columns. The very first mutation (here: the go-to-top assignment
`startat = 0`, and a scroll right) moves the offset from 0 to -1. -/
theorem C1_zero_extent_clamp_eval :
    (initTV dfEmptyRows).startat = 0
    ∧ (setStartat (initTV dfEmptyRows) 0).startat = -1
    ∧ (setColumnStartat (initTV dfNoCols) 1).columnStartat = -1 := by
  refine ⟨rfl, by decide, by decide⟩

/-- C2 (counterexample): at column offset 2 in a 40-wide four-column dataset
and a column budget of 10, the forced cut `max(firstOverflow,
columnStartat + 1)` keeps the index column and both remaining data columns;
their cumulative measured width (with separators) is 24 > 10, and the last
kept column — which is not the mandatory first visible data column — alone
exceeds the budget, beyond the claim's sole allowed exception. -/
theorem C2_counterexample :
    okColumnNames ((renderRich measureColumn tvWideFourAt2 optsTall).1) =
      some [" ", "c", "d"]
    ∧ (measureColumn " " [.pretty "0"] + 1)
        + (measureColumn "c" [.text "cccccccccc"] + 1)
        + (measureColumn "d" [.text "dddddddddd"] + 1) = 24
    ∧ ((10 : Int) < 24)
    ∧ (10 : Nat) < measureColumn "d" [.text "dddddddddd"] + 1 := by
  refine ⟨by decide, by decide, by decide, by decide⟩

/-- C3 (counterexample): at column offset 0, a single data column wider than
the whole viewport is dropped — the cut is `max(1, 0 + 1) = 1` — so the
render keeps only the index column and no data column at all. -/
theorem C3_counterexample :
    (initTV dfOneWide).columnStartat = 0
    ∧ okColumnNames ((renderRich measureColumn (initTV dfOneWide) optsTall).1) =
        some [" "] := by
  refine ⟨rfl, by decide⟩

/-- C3 (amended): the cut point is `max(firstOverflowIndex, columnOffset + 1)`
by construction, and when the column offset is at least 1 and within the
column count, every successful render keeps at least two columns — the index
column plus at least one data column — however wide the columns are. -/
theorem C3_first_column_amended (mw : String → List Renderable → Nat)
    (tv : TableView) (opts : ConsoleOptions) (out : RenderOutput)
    (h1 : 1 ≤ tv.columnStartat)
    (h2 : tv.columnStartat < (tv.df.colNames.length : Int))
    (hr : (renderRich mw tv opts).1 = .ok out) :
    (∀ (widths : List Nat) (width : Int) (fo : Nat),
        firstOverflow widths width = some fo →
        columnCut widths width tv.columnStartat =
          some ((max (fo : Int) (tv.columnStartat + 1)).toNat))
    ∧ 2 ≤ out.columnNames.length := by
  refine ⟨fun widths width fo hfo => by simp [columnCut, hfo], ?_⟩
  have hdlen : 1 ≤ (tv.df.colNames.drop tv.columnStartat.toNat).length := by
    rw [List.length_drop]; omega
  simp only [renderRich, renderWindow] at hr
  split at hr
  · exact absurd hr (by simp)
  · simp only [Except.ok.injEq] at hr
    rw [← hr]
    simp only []
    split
    · simp only [List.length_cons]; omega
    · rename_i m hm
      have hm2 : 2 ≤ m := by
        unfold columnCut at hm
        cases hfo : firstOverflow _ _ with
        | none => rw [hfo] at hm; simp at hm
        | some fo =>
          rw [hfo] at hm
          simp only [Option.some.injEq] at hm
          have hle : tv.columnStartat + 1 ≤ max (fo : Int) (tv.columnStartat + 1) :=
            le_max_right _ _
          have := Int.toNat_le_toNat hle
          omega
      rw [List.length_take]
      simp only [List.length_cons]
      omega

/-- Witness for C3 (amended): at column offset 1 of a two-column dataset the
render keeps the index column and the (overly wide) second data column. -/
theorem C3_first_column_witness : 2 ≤ outTwoColsAt1.columnNames.length :=
  (C3_first_column_amended measureColumn tvTwoColsAt1 optsTall outTwoColsAt1
    (by decide) (by decide) rfl).2

/-- C4 (code bug at short viewports): with viewport height 6 the renderer
computes `height = 6 - 7 = -1` and calls `islice` with a negative stop,
which raises ValueError instead of yielding zero rows as the claim states.
(With height ≥ 7 and offset 0 the rendered row count is indeed
`min(rowCount, height - 7)`.) -/
theorem C4_short_viewport_eval :
    (renderRich measureColumn (initTV dfThreeRows) ⟨6, 40⟩).1 = .error isliceErr :=
  rfl

/-- C5: for every pair of registries, every interface state and every input
character, the keyboard handler resolves a key against the mode-scoped
registry first while the mode is TABLE (so a key present in both registries
is handled by the mode-scoped entry), falls back to the global registry
otherwise, and for a key in neither registry leaves the state unchanged and
returns the continue signal True. -/
theorem C5_dispatch_priority (tc gc : List (String × Command)) (i : Interface)
    (ch : String) :
    (i.mode = Mode.TABLE → ∀ cmd, lookupKey tc ch = some cmd →
        keyboardHandler tc gc i ch = cmd.fn i)
    ∧ ((i.mode = Mode.TABLE → lookupKey tc ch = none) →
        ∀ cmd, lookupKey gc ch = some cmd → keyboardHandler tc gc i ch = cmd.fn i)
    ∧ ((i.mode = Mode.TABLE → lookupKey tc ch = none) → lookupKey gc ch = none →
        keyboardHandler tc gc i ch = (i, true)) := by
  unfold keyboardHandler
  by_cases hm : i.mode = Mode.TABLE <;>
    cases htc : lookupKey tc ch <;> cases hgc : lookupKey gc ch <;>
      simp [hm, htc, hgc]

/-- Witness for C5: in TABLE mode, "h" is dispatched to the mode-scoped
scroll-left command from the concrete registries. -/
theorem C5_dispatch_witness :
    keyboardHandler table_commands commands (initInterface dfThreeRows) "h" =
      scroll_left (initInterface dfThreeRows) :=
  (C5_dispatch_priority table_commands commands (initInterface dfThreeRows) "h").1
    rfl ⟨"h", "scroll left", scroll_left, "Scroll left one column in the table view"⟩
    rfl

/-- C6: rendering twice with identical viewport dimensions and no intervening
command yields identical output and an identical post-state; rendering
changes neither the row offset, the column offset nor the filter, and the
cached page size takes the value `height - 7` already after the first
render. -/
theorem C6_render_idempotent (mw : String → List Renderable → Nat)
    (tv : TableView) (opts : ConsoleOptions) :
    (renderRich mw (renderRich mw tv opts).2 opts).1 = (renderRich mw tv opts).1
    ∧ (renderRich mw (renderRich mw tv opts).2 opts).2 = (renderRich mw tv opts).2
    ∧ (renderRich mw tv opts).2.startat = tv.startat
    ∧ (renderRich mw tv opts).2.columnStartat = tv.columnStartat
    ∧ (renderRich mw tv opts).2.filter = tv.filter
    ∧ (renderRich mw tv opts).2.lastPageSize = opts.height - 7 :=
  ⟨rfl, rfl, rfl, rfl, rfl, rfl⟩

/-- C7 (counterexample): a dataset with zero columns but three rows renders
with footer "... 3 total rows", not the "... 0 total rows" the claim
demands for zero-column datasets. -/
theorem C7_counterexample :
    okFooter ((renderRich measureColumn (initTV dfNoCols) optsTall).1) =
      some "... 3 total rows"
    ∧ "... 3 total rows" ≠ "... 0 total rows" := by
  refine ⟨by decide, by decide⟩

/-- C7 (amended): with a nonnegative row offset and viewport height ≥ 7, the
footer of any successful render reports the filtered (unwindowed) row count,
and whenever the filtered row count is 0 — zero rows, or a predicate
rejecting every row — the render succeeds with an empty body and footer
"... 0 total rows". (A zero-column dataset with rows instead reports its
row count, per the counterexample.) -/
theorem C7_empty_render_amended (mw : String → List Renderable → Nat)
    (tv : TableView) (opts : ConsoleOptions)
    (h0 : 0 ≤ tv.startat) (h7 : 7 ≤ opts.height) :
    (∀ out : RenderOutput, (renderRich mw tv opts).1 = .ok out →
        out.footer =
          "... " ++ toString (filterRows tv.df tv.filter).length ++ " total rows")
    ∧ ((filterRows tv.df tv.filter).length = 0 →
        okRows ((renderRich mw tv opts).1) = some []
        ∧ okFooter ((renderRich mw tv opts).1) = some "... 0 total rows") := by
  constructor
  · intro out hout
    simp only [renderRich, renderWindow] at hout
    split at hout
    · exact absurd hout (by simp)
    · simp only [Except.ok.injEq] at hout
      rw [← hout]
  · intro hlen
    have hnil : filterRows tv.df tv.filter = [] := List.length_eq_zero.mp hlen
    have hcond : ¬(tv.startat < 0 ∨ tv.startat + (opts.height - 7) < 0) := by omega
    have hok : (renderRich mw tv opts).1 =
        .ok { columnNames := " " :: tv.df.colNames.drop tv.columnStartat.toNat,
              rows := [], footer := "... 0 total rows" } := by
      simp only [renderRich, renderWindow, hnil, List.map_nil, pagedSlice]
      rw [if_neg hcond]
      simp only [List.drop_nil, List.take_nil]
      rfl
    rw [hok]
    exact ⟨rfl, rfl⟩

/-- Witness for C7 (amended): the empty dataset renders to an empty body and
the "... 0 total rows" footer in a 17x12 viewport. -/
theorem C7_empty_render_witness :
    okRows ((renderRich measureColumn (initTV dfEmptyRows) optsTall).1) = some []
    ∧ okFooter ((renderRich measureColumn (initTV dfEmptyRows) optsTall).1) =
        some "... 0 total rows" :=
  (C7_empty_render_amended measureColumn (initTV dfEmptyRows) optsTall
    (by decide) (by decide)).2 rfl

/-- C8 (counterexample): on a zero-row dataset, page-down before any render
(cached page size still 0) moves the row offset from 0 to -1 through the
clamping setter, so it is not a no-op as the claim states. -/
theorem C8_counterexample :
    (initTV dfEmptyRows).lastPageSize = 0
    ∧ (initTV dfEmptyRows).startat = 0
    ∧ (incrementPage (initTV dfEmptyRows)).startat = -1 := by
  refine ⟨rfl, rfl, by decide⟩

/-- C8 (amended): a fresh view has cached page size 0, and before any render
the page-down/page-up commands leave the row offset unchanged whenever it
lies in the valid range of a dataset with at least one row. -/
theorem C8_prerender_noop_amended (df : DF) (tv : TableView)
    (hp : tv.lastPageSize = 0) (h0 : 0 ≤ tv.startat)
    (hs : tv.startat ≤ (tv.df.rows.length : Int) - 1) :
    (initTV df).lastPageSize = 0
    ∧ (incrementPage tv).startat = tv.startat
    ∧ (decrementPage tv).startat = tv.startat := by
  refine ⟨rfl, ?_, ?_⟩ <;>
  · simp only [incrementPage, decrementPage, setStartat, clampRow, hp, add_zero,
      sub_zero]
    rw [max_eq_right h0, min_eq_right hs]

/-- Witness for C8 (amended): on a three-row dataset the pre-render page
commands leave the offset at 0. -/
theorem C8_prerender_noop_witness :
    (initTV dfThreeRows).lastPageSize = 0
    ∧ (incrementPage (initTV dfThreeRows)).startat = (initTV dfThreeRows).startat
    ∧ (decrementPage (initTV dfThreeRows)).startat = (initTV dfThreeRows).startat :=
  C8_prerender_noop_amended dfThreeRows (initTV dfThreeRows) rfl (by decide)
    (by decide)

/-- C9: registering under a key already present in a registry fails at
registration time with the KeyError message, for every registry and key; a
successful registration appends exactly that key — it resolves to the new
command, every other key resolves as before, and key uniqueness is
preserved. -/
theorem C9_duplicate_registration (d : List (String × Command))
    (key sd : String) (fn : Interface → Interface × Bool) (doc : String) :
    ((lookupKey d key).isSome →
        addCommand d key sd fn doc = .error ("Command " ++ key ++ " already exists"))
    ∧ (lookupKey d key = none →
        addCommand d key sd fn doc = .ok (d ++ [(key, ⟨key, sd, fn, doc⟩)])
        ∧ lookupKey (d ++ [(key, ⟨key, sd, fn, doc⟩)]) key = some ⟨key, sd, fn, doc⟩
        ∧ (∀ k2, k2 ≠ key →
            lookupKey (d ++ [(key, ⟨key, sd, fn, doc⟩)]) k2 = lookupKey d k2)
        ∧ ((d.map Prod.fst).Nodup →
            ((d ++ [(key, (⟨key, sd, fn, doc⟩ : Command))]).map Prod.fst).Nodup)) := by
  constructor
  · intro h
    unfold addCommand
    rw [if_pos h]
  · intro h
    have hnotsome : ¬(lookupKey d key).isSome := by simp [h]
    have hfind : d.find? (fun kc => kc.1 == key) = none := by
      unfold lookupKey at h
      simpa using h
    have hok : addCommand d key sd fn doc =
        .ok (d ++ [(key, ⟨key, sd, fn, doc⟩)]) := by
      unfold addCommand
      rw [if_neg hnotsome]
    have hhit : lookupKey (d ++ [(key, (⟨key, sd, fn, doc⟩ : Command))]) key =
        some ⟨key, sd, fn, doc⟩ := by
      unfold lookupKey
      rw [List.find?_append, hfind]
      simp [List.find?]
    have hmiss : ∀ k2, k2 ≠ key →
        lookupKey (d ++ [(key, (⟨key, sd, fn, doc⟩ : Command))]) k2 =
          lookupKey d k2 := by
      intro k2 hk2
      have hb : (key == k2) = false := beq_eq_false_iff_ne.mpr (Ne.symm hk2)
      unfold lookupKey
      rw [List.find?_append]
      have hnone : List.find? (fun kc => kc.1 == k2)
          [(key, (⟨key, sd, fn, doc⟩ : Command))] = none := by
        simp [List.find?, hb]
      rw [hnone]
      cases d.find? (fun kc => kc.1 == k2) <;> rfl
    have hnodup : (d.map Prod.fst).Nodup →
        ((d ++ [(key, (⟨key, sd, fn, doc⟩ : Command))]).map Prod.fst).Nodup := by
      intro hnd
      rw [List.map_append, List.nodup_append]
      refine ⟨hnd, by simp, ?_⟩
      intro x hx hx2
      simp only [List.map_cons, List.map_nil, List.mem_cons, List.not_mem_nil,
        or_false] at hx2
      subst hx2
      rcases List.mem_map.mp hx with ⟨kc, hkc, rfl⟩
      have hne := List.find?_eq_none.mp hfind kc hkc
      simp at hne
    exact ⟨hok, hhit, hmiss, hnodup⟩

/-- Witness for C9: adding an unused key to the concrete table registry
succeeds and appends it. -/
theorem C9_duplicate_registration_witness :
    addCommand table_commands "x" "X" quit_command "doc" =
      .ok (table_commands ++ [("x", ⟨"x", "X", quit_command, "doc"⟩)]) :=
  ((C9_duplicate_registration table_commands "x" "X" quit_command "doc").2 rfl).1

/-- C10: the offset clamp uses the unfiltered dataset extent even when a row
filter is installed, so the row offset can be set to any value between the
filtered row count and the unfiltered count minus one; the subsequent render
then produces an empty row window instead of clamping to the filtered
extent. -/
theorem C10_unfiltered_bounds (mw : String → List Renderable → Nat)
    (tv : TableView) (p : List PyVal → Bool) (s : Int) (opts : ConsoleOptions)
    (_hf : tv.filter = some p) (h0 : 0 ≤ s)
    (hfl : ((filterRows tv.df tv.filter).length : Int) ≤ s)
    (hs : s ≤ (tv.df.rows.length : Int) - 1)
    (h7 : 7 ≤ opts.height) :
    (setStartat tv s).startat = s
    ∧ okRows ((renderRich mw (setStartat tv s) opts).1) = some [] := by
  have hset : (setStartat tv s).startat = s := by
    simp only [setStartat, clampRow]
    rw [max_eq_right h0, min_eq_right hs]
  refine ⟨hset, ?_⟩
  show okRows (renderWindow mw (setStartat tv s).df (setStartat tv s).filter
      (setStartat tv s).startat (setStartat tv s).columnStartat
      (opts.height - 7) (opts.maxWidth - 2)) = some []
  rw [hset]
  exact renderWindow_past_extent mw (setStartat tv s).df (setStartat tv s).filter
    s (setStartat tv s).columnStartat (opts.height - 7) (opts.maxWidth - 2)
    h0 (by omega) (by simp only [setStartat]; omega)

/-- Witness for C10: with a filter keeping 1 of 3 rows, the offset can be set
to 2 (at the unfiltered bound, past the filtered extent) and the render
shows an empty row window. -/
theorem C10_unfiltered_bounds_witness :
    (setStartat tvFiltered 2).startat = 2
    ∧ okRows ((renderRich measureColumn (setStartat tvFiltered 2) optsTall).1) =
        some [] :=
  C10_unfiltered_bounds measureColumn tvFiltered pOnlyX 2 optsTall rfl
    (by decide) (by decide) (by decide) (by decide)

end DBV
